import Mathlib

/-!
Verification of the EDL job parser (`pkg/jobparser.go`).

The Go code translates a `TrainingJob` resource into three Kubernetes
workload descriptors: a pserver ReplicaSet, a trainer batch Job and a
master ReplicaSet.  Machine integers (`int`, `int32`) are modelled as
`Int`, with the Go `int32(...)` conversion made explicit as `wrap32`.
-/

namespace EDL

/-- Modelled from the spec: a resource request list (the external
Kubernetes `ResourceList`, missing from the sources).  GPU accelerator
counts are whole numbers; CPU quantities may be fractional and are kept
in milli-units. -/
structure ResourceList where
  nvidiaGPU : Int := 0
  cpuMilli : Int := 0
  deriving Repr, DecidableEq

/-- Modelled from the spec: resource requirements of one role
(requests and limits), carried through opaquely by the builders. -/
structure ResourceRequirements where
  requests : ResourceList := {}
  limits : ResourceList := {}
  deriving Repr, DecidableEq

/-- Modelled from the spec: the trainer role sub-spec of a job
description (min/max instance count, entrypoint, workspace path,
compute resources); the Go type lives in `pkg/resource`, outside the
sources. -/
structure TrainerSpec where
  entrypoint : String := ""
  workspace : String := ""
  minInstance : Int := 0
  maxInstance : Int := 0
  resources : ResourceRequirements := {}
  deriving Repr, DecidableEq

/-- Modelled from the spec: the pserver role sub-spec (min instance
count, compute resources). -/
structure PserverSpec where
  minInstance : Int := 0
  resources : ResourceRequirements := {}
  deriving Repr, DecidableEq

/-- Modelled from the spec: the master role sub-spec (compute
resources only). -/
structure MasterSpec where
  resources : ResourceRequirements := {}
  deriving Repr, DecidableEq

/-- Modelled from the spec: the job description fields read by the
parser.  `port`, `portsNum`, `portsNumForSparse` and `passes` are Go
`int` (they are passed to `strconv.Itoa`), hence `Int` here.  Volumes,
volume mounts and pull secrets are carried through opaquely and are
modelled by their names. -/
structure TrainingJobSpec where
  image : String := ""
  port : Int := 0
  portsNum : Int := 0
  portsNumForSparse : Int := 0
  faultTolerant : Bool := false
  passes : Int := 0
  volumes : List String := []
  volumeMounts : List String := []
  imagePullSecrets : List String := []
  hostNetwork : Bool := false
  trainer : TrainerSpec := {}
  pserver : PserverSpec := {}
  master : MasterSpec := {}
  deriving Repr, DecidableEq

/-- Object metadata (name and namespace) of a resource. -/
structure ObjectMeta where
  name : String := ""
  nspace : String := ""
  labels : List (String × String) := []
  deriving Repr, DecidableEq

/-- Modelled from the spec: the `TrainingJob` resource (metadata plus
spec); the Go type lives in `pkg/resource`, outside the sources. -/
structure TrainingJob where
  metadata : ObjectMeta := {}
  spec : TrainingJobSpec := {}
  deriving Repr, DecidableEq

/-- Modelled from the spec: `job.Elastic()` (defined in `pkg/resource`,
outside the sources) holds when the trainer min-instance count differs
from the trainer max-instance count. -/
def TrainingJob.elastic (job : TrainingJob) : Bool :=
  job.spec.trainer.minInstance != job.spec.trainer.maxInstance

/-- Modelled from the spec: `job.NeedGPU()` (defined in `pkg/resource`,
outside the sources) holds when the trainer resource request specifies
GPU accelerators. -/
def TrainingJob.needGPU (job : TrainingJob) : Bool :=
  0 < job.spec.trainer.resources.requests.nvidiaGPU

/-- The Go `int32(n)` conversion: wrap into `[-2^31, 2^31)`. -/
def wrap32 (n : Int) : Int :=
  (n + 2 ^ 31) % 2 ^ 32 - 2 ^ 31

/-- A container port (`v1.ContainerPort`): name and port number
(`int32`). -/
structure ContainerPort where
  name : String := ""
  containerPort : Int := 0
  deriving Repr, DecidableEq

/-- An environment variable (`v1.EnvVar`).  A runtime-resolved
reference (`ValueFrom.FieldRef.FieldPath`) is modelled by the field
path itself. -/
structure EnvVar where
  name : String := ""
  value : String := ""
  valueFrom : Option String := none
  deriving Repr, DecidableEq

/-- A container descriptor (`v1.Container`), restricted to the fields
the parser sets. -/
structure Container where
  name : String := ""
  image : String := ""
  imagePullPolicy : String := ""
  command : List String := []
  volumeMounts : List String := []
  ports : List ContainerPort := []
  env : List EnvVar := []
  resources : ResourceRequirements := {}
  deriving Repr, DecidableEq

/-- A pod spec (`v1.PodSpec`), restricted to the fields the parser
sets. -/
structure PodSpec where
  volumes : List String := []
  containers : List Container := []
  imagePullSecrets : List String := []
  hostNetwork : Bool := false
  restartPolicy : String := ""
  deriving Repr, DecidableEq

/-- A pod template (`v1.PodTemplateSpec`). -/
structure PodTemplateSpec where
  metadata : ObjectMeta := {}
  spec : PodSpec := {}
  deriving Repr, DecidableEq

/-- Type metadata (kind and API version). -/
structure TypeMeta where
  kind : String := ""
  apiVersion : String := ""
  deriving Repr, DecidableEq

/-- A ReplicaSet spec (`v1beta1.ReplicaSetSpec`); `replicas` is
`*int32`. -/
structure ReplicaSetSpec where
  replicas : Int := 0
  template : PodTemplateSpec := {}
  deriving Repr, DecidableEq

/-- A ReplicaSet resource (`v1beta1.ReplicaSet`). -/
structure ReplicaSet where
  typeMeta : TypeMeta := {}
  metadata : ObjectMeta := {}
  spec : ReplicaSetSpec := {}
  deriving Repr, DecidableEq

/-- A batch job spec (`batchv1.JobSpec`); `parallelism` is `*int32`. -/
structure JobSpec where
  parallelism : Int := 0
  template : PodTemplateSpec := {}
  deriving Repr, DecidableEq

/-- A batch job resource (`batchv1.Job`). -/
structure Job where
  typeMeta : TypeMeta := {}
  metadata : ObjectMeta := {}
  spec : JobSpec := {}
  deriving Repr, DecidableEq

/-- `const imagePullPolicy = "Always"` from the source. -/
def imagePullPolicy : String := "Always"

/-- `if job.Spec.Port == 0 { job.Spec.Port = 7164 }` -/
def defaultPort (job : TrainingJob) : TrainingJob :=
  if job.spec.port = 0 then
    { job with spec := { job.spec with port := 7164 } }
  else job

/-- `if job.Spec.PortsNum == 0 { job.Spec.PortsNum = 1 }` -/
def defaultPortsNum (job : TrainingJob) : TrainingJob :=
  if job.spec.portsNum = 0 then
    { job with spec := { job.spec with portsNum := 1 } }
  else job

/-- `if job.Spec.PortsNumForSparse == 0 { job.Spec.PortsNumForSparse = 1 }` -/
def defaultPortsNumForSparse (job : TrainingJob) : TrainingJob :=
  if job.spec.portsNumForSparse = 0 then
    { job with spec := { job.spec with portsNumForSparse := 1 } }
  else job

/-- `if job.Spec.Image == "" { job.Spec.Image = "paddlepaddle/paddlecloud-job" }` -/
def defaultImage (job : TrainingJob) : TrainingJob :=
  if job.spec.image = "" then
    { job with spec := { job.spec with image := "paddlepaddle/paddlecloud-job" } }
  else job

/-- `if job.Spec.Passes == 0 { job.Spec.Passes = 1 }` -/
def defaultPasses (job : TrainingJob) : TrainingJob :=
  if job.spec.passes = 0 then
    { job with spec := { job.spec with passes := 1 } }
  else job

/-- The default-filling phase of `Validate` (lines 50-64 of
`jobparser.go`), applied in source order. -/
def fillDefaults (job : TrainingJob) : TrainingJob :=
  defaultPasses (defaultImage (defaultPortsNumForSparse (defaultPortsNum (defaultPort job))))

/-- The error message of `Validate`. -/
def invalidElasticMsg : String :=
  "max-instances should equal to min-instances when fault_tolerant is disabled"

/-- `Validate` from `jobparser.go`: fills defaults into the job (the Go
code mutates the job through a pointer; the model returns the mutated
job next to the error), then rejects an elastic job without fault
tolerance. -/
def Validate (job : TrainingJob) : TrainingJob × Option String :=
  let j := fillDefaults job
  if !j.spec.faultTolerant && j.elastic then
    (j, some invalidElasticMsg)
  else
    (j, none)

/-- `podPorts` from `jobparser.go`: `PortsNum + PortsNumForSparse`
consecutive ports starting at `int32(job.Spec.Port)`, each named
`jobport-<port>`.  The Go loop increments an `int32`, hence the
`wrap32` at every step.  (For a negative total Go's `make` panics; the
model returns `[]` there, a region no theorem relies on.) -/
def podPorts (job : TrainingJob) : List ContainerPort :=
  let portsTotal := job.spec.portsNum + job.spec.portsNumForSparse
  let basePort := wrap32 job.spec.port
  (List.range portsTotal.toNat).map fun (i : Nat) =>
    { name := "jobport-" ++ toString (wrap32 (basePort + (i : Int))),
      containerPort := wrap32 (basePort + (i : Int)) }

/-- `masterPorts` from `jobparser.go`: the fixed master/etcd port
pair. -/
def masterPorts (_job : TrainingJob) : List ContainerPort :=
  [{ name := "master-port", containerPort := 8080 },
   { name := "etcd-port", containerPort := 2379 }]

/-- Modelled from the spec: `Quantity.Value()` of the external resource
library applied to the CPU request — the integer part of the requested
CPU quantity, fractional requests truncated toward zero. -/
def ResourceList.cpuValue (r : ResourceList) : Int :=
  r.cpuMilli.tdiv 1000

/-- The `trainerCount` computed by `podEnv`: the GPU request when the
job needs GPUs, otherwise the truncated CPU request. -/
def trainerCount (job : TrainingJob) : Int :=
  if job.needGPU then
    job.spec.trainer.resources.requests.nvidiaGPU
  else
    job.spec.trainer.resources.requests.cpuValue

/-- `podEnv` from `jobparser.go`: the ordered environment variable
list shared by pserver, trainer and etcd containers. -/
def podEnv (job : TrainingJob) : List EnvVar :=
  let needGPU := if job.needGPU then "1" else "0"
  [{ name := "PADDLE_JOB_NAME", value := job.metadata.name },
   { name := "TRAINERS", value := toString job.spec.trainer.minInstance },
   { name := "PSERVERS", value := toString job.spec.pserver.minInstance },
   { name := "ENTRY", value := job.spec.trainer.entrypoint },
   { name := "TOPOLOGY", value := job.spec.trainer.entrypoint },
   { name := "TRAINER_PACKAGE", value := job.spec.trainer.workspace },
   { name := "PADDLE_INIT_PORT", value := toString job.spec.port },
   { name := "PADDLE_INIT_TRAINER_COUNT", value := toString (trainerCount job) },
   { name := "PADDLE_INIT_PORTS_NUM", value := toString job.spec.portsNum },
   { name := "PADDLE_INIT_PORTS_NUM_FOR_SPARSE", value := toString job.spec.portsNumForSparse },
   { name := "PADDLE_INIT_NUM_GRADIENT_SERVERS", value := toString job.spec.trainer.minInstance },
   { name := "PADDLE_INIT_NUM_PASSES", value := toString job.spec.passes },
   { name := "PADDLE_INIT_USE_GPU", value := needGPU },
   { name := "LD_LIBRARY_PATH", value := "/usr/local/cuda/lib64" },
   { name := "NAMESPACE", valueFrom := some "metadata.namespace" },
   { name := "POD_IP", valueFrom := some "status.podIP" }]

/-- `ParseToPserver` from `jobparser.go`: the pserver ReplicaSet. -/
def ParseToPserver (job : TrainingJob) : ReplicaSet :=
  let replicas := wrap32 job.spec.pserver.minInstance
  let command :=
    if job.spec.faultTolerant then ["paddle_k8s", "start_new_pserver"]
    else ["paddle_k8s", "start_pserver"]
  { typeMeta := { kind := "extensions/v1beta1", apiVersion := "ReplicaSet" },
    metadata := { name := job.metadata.name ++ "-pserver",
                  nspace := job.metadata.nspace },
    spec :=
      { replicas := replicas,
        template :=
          { metadata := { labels := [("paddle-job-pserver", job.metadata.name)] },
            spec :=
              { volumes := job.spec.volumes,
                containers :=
                  [{ name := "pserver",
                     image := job.spec.image,
                     ports := podPorts job,
                     env := podEnv job,
                     command := command,
                     resources := job.spec.pserver.resources }],
                imagePullSecrets := job.spec.imagePullSecrets,
                hostNetwork := job.spec.hostNetwork } } } }

/-- `ParseToTrainer` from `jobparser.go`: the trainer batch Job. -/
def ParseToTrainer (job : TrainingJob) : Job :=
  let replicas := wrap32 job.spec.trainer.minInstance
  let command :=
    if job.spec.faultTolerant then ["paddle_k8s", "start_new_trainer"]
    else ["paddle_k8s", "start_trainer", "v2"]
  { typeMeta := { kind := "Job", apiVersion := "batch/v1" },
    metadata := { name := job.metadata.name ++ "-trainer",
                  nspace := job.metadata.nspace },
    spec :=
      { parallelism := replicas,
        template :=
          { metadata := { labels := [("paddle-job", job.metadata.name)] },
            spec :=
              { volumes := job.spec.volumes,
                containers :=
                  [{ name := "trainer",
                     image := job.spec.image,
                     imagePullPolicy := imagePullPolicy,
                     command := command,
                     volumeMounts := job.spec.volumeMounts,
                     ports := podPorts job,
                     env := podEnv job,
                     resources := job.spec.trainer.resources }],
                imagePullSecrets := job.spec.imagePullSecrets,
                hostNetwork := job.spec.hostNetwork,
                restartPolicy := "Never" } } } }

/-- `getEtcdPodSpec` from `jobparser.go`: the embedded etcd
container. -/
def getEtcdPodSpec (job : TrainingJob) : Container :=
  let command :=
    ["etcd", "-name", "etcd0",
     "-advertise-client-urls", "http://$(POD_IP):2379,http://$(POD_IP):4001",
     "-listen-client-urls", "http://0.0.0.0:2379,http://0.0.0.0:4001",
     "-initial-advertise-peer-urls", "http://$(POD_IP):2380",
     "-listen-peer-urls", "http://0.0.0.0:2380",
     "-initial-cluster", "etcd0=http://$(POD_IP):2380",
     "-initial-cluster-state", "new"]
  { name := "etcd",
    image := "quay.io/coreos/etcd:v3.2.1",
    imagePullPolicy := imagePullPolicy,
    env := podEnv job,
    command := command }

/-- `ParseToMaster` from `jobparser.go`: the master ReplicaSet with one
master container and one etcd container. -/
def ParseToMaster (job : TrainingJob) : ReplicaSet :=
  let replicas : Int := 1
  let command := ["paddle_k8s", "start_master"]
  { typeMeta := { kind := "extensions/v1beta1", apiVersion := "ReplicaSet" },
    metadata := { name := job.metadata.name ++ "-master",
                  nspace := job.metadata.nspace },
    spec :=
      { replicas := replicas,
        template :=
          { metadata := { labels := [("paddle-job-master", job.metadata.name)] },
            spec :=
              { volumes := job.spec.volumes,
                containers :=
                  [{ name := "master",
                     image := job.spec.image,
                     imagePullPolicy := imagePullPolicy,
                     ports := masterPorts job,
                     command := command,
                     volumeMounts := job.spec.volumeMounts,
                     resources := job.spec.master.resources },
                   getEtcdPodSpec job],
                imagePullSecrets := job.spec.imagePullSecrets,
                hostNetwork := job.spec.hostNetwork } } } }

/-! ### Concrete jobs used to instantiate hypotheses -/

/-- The end-to-end scenario job: fault tolerant, explicit ports. -/
def jobA : TrainingJob :=
  { metadata := { name := "wide2", nspace := "ns1" },
    spec := { port := 7164, portsNum := 1, portsNumForSparse := 1,
              faultTolerant := true,
              trainer := { minInstance := 4, maxInstance := 4 },
              pserver := { minInstance := 2 } } }

/-- The negative scenario job: elastic but not fault tolerant. -/
def jobErr : TrainingJob :=
  { metadata := { name := "wide2", nspace := "ns1" },
    spec := { faultTolerant := false,
              trainer := { minInstance := 4, maxInstance := 8 },
              pserver := { minInstance := 2 } } }

/-- A job with a negative configured base port; `Validate` accepts it
because only a base port equal to zero is defaulted. -/
def jobNegPort : TrainingJob :=
  { metadata := { name := "neg", nspace := "ns1" },
    spec := { port := -1, faultTolerant := true,
              trainer := { minInstance := 1, maxInstance := 1 },
              pserver := { minInstance := 1 } } }

/-! ### Helper lemmas -/

theorem fillDefaults_eq (job : TrainingJob) :
    fillDefaults job =
      { job with spec :=
        { job.spec with
          port := if job.spec.port = 0 then 7164 else job.spec.port,
          portsNum := if job.spec.portsNum = 0 then 1 else job.spec.portsNum,
          portsNumForSparse :=
            if job.spec.portsNumForSparse = 0 then 1 else job.spec.portsNumForSparse,
          image := if job.spec.image = "" then "paddlepaddle/paddlecloud-job" else job.spec.image,
          passes := if job.spec.passes = 0 then 1 else job.spec.passes } } := by
  obtain ⟨meta, spec⟩ := job
  obtain ⟨image, port, portsNum, portsNumForSparse, ft, passes, v, vm, ips, hn, tr, ps, ms⟩ := spec
  by_cases h1 : port = 0 <;> by_cases h2 : portsNum = 0 <;>
    by_cases h3 : portsNumForSparse = 0 <;> by_cases h4 : image = "" <;>
      by_cases h5 : passes = 0 <;>
        simp [fillDefaults, defaultPort, defaultPortsNum, defaultPortsNumForSparse,
          defaultImage, defaultPasses, h1, h2, h3, h4, h5]

theorem fillDefaults_faultTolerant (job : TrainingJob) :
    (fillDefaults job).spec.faultTolerant = job.spec.faultTolerant := by
  rw [fillDefaults_eq]

theorem fillDefaults_trainer (job : TrainingJob) :
    (fillDefaults job).spec.trainer = job.spec.trainer := by
  rw [fillDefaults_eq]

theorem Validate_fst (job : TrainingJob) : (Validate job).1 = fillDefaults job := by
  simp only [Validate]
  split <;> rfl

theorem Validate_snd (job : TrainingJob) :
    (Validate job).2 =
      if job.spec.faultTolerant = false ∧
          job.spec.trainer.minInstance ≠ job.spec.trainer.maxInstance then
        some invalidElasticMsg
      else none := by
  have hft := fillDefaults_faultTolerant job
  have htr := fillDefaults_trainer job
  simp only [Validate, TrainingJob.elastic, hft, htr]
  by_cases h1 : job.spec.faultTolerant = true <;>
    by_cases h2 : job.spec.trainer.minInstance = job.spec.trainer.maxInstance <;>
      simp [h1, h2, bne_iff_ne]

/-! ### Claim theorems -/

/-- Claim C1: `Validate` fails with the invalid-elastic-configuration
error exactly when fault tolerance is disabled and the trainer
min-instance count differs from the trainer max-instance count; it
succeeds for every other combination. -/
theorem Validate_error_iff (job : TrainingJob) :
    ((Validate job).2 = some invalidElasticMsg ↔
      job.spec.faultTolerant = false ∧
        job.spec.trainer.minInstance ≠ job.spec.trainer.maxInstance) ∧
    ((Validate job).2 = none ↔
      ¬(job.spec.faultTolerant = false ∧
        job.spec.trainer.minInstance ≠ job.spec.trainer.maxInstance)) := by
  rw [Validate_snd]
  by_cases h : job.spec.faultTolerant = false ∧
      job.spec.trainer.minInstance ≠ job.spec.trainer.maxInstance <;>
    simp [h]

/-- Claim C2: `Validate` sets base port, dense port count, sparse port
count, image and pass count to their defaults exactly when the field is
unset (zero value), and leaves every other field — and every
explicitly-set field — of the job description unchanged. -/
theorem Validate_defaults (job : TrainingJob) :
    (Validate job).1.spec.port = (if job.spec.port = 0 then 7164 else job.spec.port) ∧
    (Validate job).1.spec.portsNum = (if job.spec.portsNum = 0 then 1 else job.spec.portsNum) ∧
    (Validate job).1.spec.portsNumForSparse =
      (if job.spec.portsNumForSparse = 0 then 1 else job.spec.portsNumForSparse) ∧
    (Validate job).1.spec.image =
      (if job.spec.image = "" then "paddlepaddle/paddlecloud-job" else job.spec.image) ∧
    (Validate job).1.spec.passes = (if job.spec.passes = 0 then 1 else job.spec.passes) ∧
    (Validate job).1.metadata = job.metadata ∧
    (Validate job).1.spec.faultTolerant = job.spec.faultTolerant ∧
    (Validate job).1.spec.trainer = job.spec.trainer ∧
    (Validate job).1.spec.pserver = job.spec.pserver ∧
    (Validate job).1.spec.master = job.spec.master ∧
    (Validate job).1.spec.volumes = job.spec.volumes ∧
    (Validate job).1.spec.volumeMounts = job.spec.volumeMounts ∧
    (Validate job).1.spec.imagePullSecrets = job.spec.imagePullSecrets ∧
    (Validate job).1.spec.hostNetwork = job.spec.hostNetwork := by
  rw [Validate_fst, fillDefaults_eq]
  exact ⟨rfl, rfl, rfl, rfl, rfl, rfl, rfl, rfl, rfl, rfl, rfl, rfl, rfl, rfl⟩

/-- Claim C10: whenever `Validate` rejects a job, the returned job has
nevertheless already been mutated with the default values for base
port, port counts, image and pass count. -/
theorem Validate_mutates_on_error (job : TrainingJob)
    (h : (Validate job).2 ≠ none) :
    (Validate job).1.spec.port = (if job.spec.port = 0 then 7164 else job.spec.port) ∧
    (Validate job).1.spec.portsNum = (if job.spec.portsNum = 0 then 1 else job.spec.portsNum) ∧
    (Validate job).1.spec.portsNumForSparse =
      (if job.spec.portsNumForSparse = 0 then 1 else job.spec.portsNumForSparse) ∧
    (Validate job).1.spec.image =
      (if job.spec.image = "" then "paddlepaddle/paddlecloud-job" else job.spec.image) ∧
    (Validate job).1.spec.passes = (if job.spec.passes = 0 then 1 else job.spec.passes) := by
  rw [Validate_fst, fillDefaults_eq]
  exact ⟨rfl, rfl, rfl, rfl, rfl⟩

/-- Witness for C10 at the negative scenario job, which `Validate`
rejects with its defaults already applied. -/
theorem Validate_mutates_on_error_witness :
    (Validate jobErr).1.spec.port = (if jobErr.spec.port = 0 then 7164 else jobErr.spec.port) ∧
    (Validate jobErr).1.spec.portsNum =
      (if jobErr.spec.portsNum = 0 then 1 else jobErr.spec.portsNum) ∧
    (Validate jobErr).1.spec.portsNumForSparse =
      (if jobErr.spec.portsNumForSparse = 0 then 1 else jobErr.spec.portsNumForSparse) ∧
    (Validate jobErr).1.spec.image =
      (if jobErr.spec.image = "" then "paddlepaddle/paddlecloud-job" else jobErr.spec.image) ∧
    (Validate jobErr).1.spec.passes =
      (if jobErr.spec.passes = 0 then 1 else jobErr.spec.passes) :=
  Validate_mutates_on_error jobErr (by decide)

/-- Counterexample for C3 as stated: a job whose configured base port
is negative passes validation, yet the returned base port is not
positive — only a base port equal to zero is defaulted. -/
theorem Validate_invariant_cex :
    (Validate jobNegPort).2 = none ∧ ¬(0 < (Validate jobNegPort).1.spec.port) := by
  decide

/-- Claim C3 (amended with nonnegativity of the configured numeric
fields): if `Validate` succeeds on a job whose base port, port counts
and pass count are nonnegative, the returned job has a positive base
port, port counts and pass count at least one, a non-empty image, and
fault tolerance enabled whenever the job is elastic. -/
theorem Validate_ok_invariants (job : TrainingJob)
    (hp : 0 ≤ job.spec.port) (hn : 0 ≤ job.spec.portsNum)
    (hs : 0 ≤ job.spec.portsNumForSparse) (hpass : 0 ≤ job.spec.passes)
    (hok : (Validate job).2 = none) :
    0 < (Validate job).1.spec.port ∧
    1 ≤ (Validate job).1.spec.portsNum ∧
    1 ≤ (Validate job).1.spec.portsNumForSparse ∧
    1 ≤ (Validate job).1.spec.passes ∧
    (Validate job).1.spec.image ≠ "" ∧
    ((Validate job).1.elastic = true → (Validate job).1.spec.faultTolerant = true) := by
  rw [Validate_snd] at hok
  rw [Validate_fst, fillDefaults_eq]
  refine ⟨?_, ?_, ?_, ?_, ?_, ?_⟩
  · by_cases h : job.spec.port = 0 <;> simp [h] <;> omega
  · by_cases h : job.spec.portsNum = 0 <;> simp [h] <;> omega
  · by_cases h : job.spec.portsNumForSparse = 0 <;> simp [h] <;> omega
  · by_cases h : job.spec.passes = 0 <;> simp [h] <;> omega
  · by_cases h : job.spec.image = "" <;> simp [h]
  · intro he
    simp only [TrainingJob.elastic, bne_iff_ne] at he
    by_contra hft
    simp only [Bool.not_eq_true] at hft
    rw [if_pos] at hok
    · exact Option.some_ne_none invalidElasticMsg hok
    · exact ⟨hft, by simpa using he⟩

/-- Witness for C3 (amended) at the end-to-end scenario job. -/
theorem Validate_ok_invariants_witness :
    0 < (Validate jobA).1.spec.port ∧
    1 ≤ (Validate jobA).1.spec.portsNum ∧
    1 ≤ (Validate jobA).1.spec.portsNumForSparse ∧
    1 ≤ (Validate jobA).1.spec.passes ∧
    (Validate jobA).1.spec.image ≠ "" ∧
    ((Validate jobA).1.elastic = true → (Validate jobA).1.spec.faultTolerant = true) :=
  Validate_ok_invariants jobA (by decide) (by decide) (by decide) (by decide) (by decide)

/-- Claim C4: the environment entry emitted under
`PADDLE_INIT_TRAINER_COUNT` is unique and carries the requested GPU
quantity when the trainer resource request specifies GPU accelerators,
and otherwise the integer part of the requested CPU quantity, truncated
toward zero. -/
theorem podEnv_trainer_count (job : TrainingJob) :
    (podEnv job).filter (fun e => e.name == "PADDLE_INIT_TRAINER_COUNT") =
      [{ name := "PADDLE_INIT_TRAINER_COUNT",
         value := toString
           (if job.needGPU then job.spec.trainer.resources.requests.nvidiaGPU
            else job.spec.trainer.resources.requests.cpuMilli.tdiv 1000) }] := by
  rfl

/-- Claim C5: `podPorts` returns exactly dense+sparse ports which are
consecutive, ascending by one from the configured base port, each named
for its own port number, provided the counts are nonnegative and the
ports stay inside the `int32` range. -/
theorem podPorts_spec (job : TrainingJob)
    (hd : 0 ≤ job.spec.portsNum) (hs : 0 ≤ job.spec.portsNumForSparse)
    (hlo : -(2 ^ 31) ≤ job.spec.port)
    (hhi : job.spec.port + (job.spec.portsNum + job.spec.portsNumForSparse) ≤ 2 ^ 31) :
    ((podPorts job).length : Int) = job.spec.portsNum + job.spec.portsNumForSparse ∧
    podPorts job =
      (List.range (job.spec.portsNum + job.spec.portsNumForSparse).toNat).map fun (i : Nat) =>
        { name := "jobport-" ++ toString (job.spec.port + (i : Int)),
          containerPort := job.spec.port + (i : Int) } := by
  have key : ∀ i : Nat, i < (job.spec.portsNum + job.spec.portsNumForSparse).toNat →
      wrap32 (wrap32 job.spec.port + i) = job.spec.port + i := by
    intro i hi
    simp only [wrap32]
    omega
  constructor
  · simp only [podPorts, List.length_map, List.length_range]
    omega
  · simp only [podPorts]
    refine List.map_congr_left ?_
    intro i hi
    rw [List.mem_range] at hi
    rw [key i hi]

/-- Witness for C5 at the end-to-end scenario job. -/
theorem podPorts_spec_witness :
    ((podPorts jobA).length : Int) = jobA.spec.portsNum + jobA.spec.portsNumForSparse ∧
    podPorts jobA =
      (List.range (jobA.spec.portsNum + jobA.spec.portsNumForSparse).toNat).map fun (i : Nat) =>
        { name := "jobport-" ++ toString (jobA.spec.port + (i : Int)),
          containerPort := jobA.spec.port + (i : Int) } :=
  podPorts_spec jobA (by decide) (by decide) (by decide) (by decide)

/-- Claim C6: the pserver and trainer container commands are pure
functions of the fault-tolerance flag alone — the four literal command
lists of the source. -/
theorem command_selection (job : TrainingJob) :
    ((ParseToPserver job).spec.template.spec.containers.map fun c => c.command) =
      [if job.spec.faultTolerant then ["paddle_k8s", "start_new_pserver"]
       else ["paddle_k8s", "start_pserver"]] ∧
    ((ParseToTrainer job).spec.template.spec.containers.map fun c => c.command) =
      [if job.spec.faultTolerant then ["paddle_k8s", "start_new_trainer"]
       else ["paddle_k8s", "start_trainer", "v2"]] := by
  cases h : job.spec.faultTolerant <;> simp [ParseToPserver, ParseToTrainer, h]

/-- Claim C7: the trainer builder names the job `<name>-trainer`, sets
the pod restart policy to `Never`, and sets the parallelism to the
trainer min-instance count (which is converted to `int32`, hence the
range hypotheses). -/
theorem trainer_shape (job : TrainingJob)
    (h1 : -(2 ^ 31) ≤ job.spec.trainer.minInstance)
    (h2 : job.spec.trainer.minInstance < 2 ^ 31) :
    (ParseToTrainer job).metadata.name = job.metadata.name ++ "-trainer" ∧
    (ParseToTrainer job).spec.template.spec.restartPolicy = "Never" ∧
    (ParseToTrainer job).spec.parallelism = job.spec.trainer.minInstance := by
  refine ⟨rfl, rfl, ?_⟩
  show wrap32 job.spec.trainer.minInstance = job.spec.trainer.minInstance
  simp only [wrap32]
  omega

/-- Witness for C7 at the end-to-end scenario job. -/
theorem trainer_shape_witness :
    (ParseToTrainer jobA).metadata.name = jobA.metadata.name ++ "-trainer" ∧
    (ParseToTrainer jobA).spec.template.spec.restartPolicy = "Never" ∧
    (ParseToTrainer jobA).spec.parallelism = jobA.spec.trainer.minInstance :=
  trainer_shape jobA (by decide) (by decide)

/-- Claim C8: the master builder produces one ReplicaSet with replica
count 1 and exactly two containers, the first of which (the master
container) carries exactly the fixed port pair, independent of the
job. -/
theorem master_shape (job : TrainingJob) :
    (ParseToMaster job).spec.replicas = 1 ∧
    (ParseToMaster job).spec.template.spec.containers.length = 2 ∧
    ((ParseToMaster job).spec.template.spec.containers.map fun c => c.ports) =
      [[{ name := "master-port", containerPort := 8080 },
        { name := "etcd-port", containerPort := 2379 }], []] :=
  ⟨rfl, rfl, rfl⟩

/-- Claim C9: environment composition is deterministic — identical job
descriptions yield identical ordered environment lists. -/
theorem podEnv_deterministic (j1 j2 : TrainingJob) (h : j1 = j2) :
    podEnv j1 = podEnv j2 :=
  congrArg podEnv h

/-- Witness for C9 at the end-to-end scenario job. -/
theorem podEnv_deterministic_witness : podEnv jobA = podEnv jobA :=
  podEnv_deterministic jobA jobA rfl

end EDL
